import Mathlib

/-!
Verification of the RepoRoller webhook receiver example
(`examples/webhook-receiver/python/receiver.py`).

The development shallowly embeds the receiver: byte strings are `List Nat`
(each element a byte value `< 256`), Python `str` values are Lean `String`
(with `List Char` used internally), and the HTTP endpoint is a pure
function from the request pieces to a response together with a trace of the
observable actions the handler performs (logging, JSON parsing, dispatch).

The cryptographic primitives the receiver calls (`hashlib.sha256`,
`hmac.new`, `hmac.compare_digest`) are embedded as executable Lean
functions following their standard definitions (FIPS 180-4, RFC 2104) and
CPython's implementation of `compare_digest`; the SHA-256 and HMAC models
are checked below against published test vectors.
-/

set_option maxRecDepth 100000

namespace WebhookReceiver

/-! ## SHA-256 (model of `hashlib.sha256`, FIPS 180-4) -/

/-- Truncation to a 32-bit word. -/
def w32 (n : Nat) : Nat := n % 4294967296

/-- Right rotation of a 32-bit word by `n` places. -/
def rotr (n x : Nat) : Nat := w32 ((x >>> n) ||| (x <<< (32 - n)))

/-- Logical right shift. -/
def shr (n x : Nat) : Nat := x >>> n

/-- Bitwise complement of a 32-bit word. -/
def not32 (x : Nat) : Nat := x ^^^ 4294967295

/-- SHA-256 `Ch` function. -/
def ch (x y z : Nat) : Nat := (x &&& y) ^^^ (not32 x &&& z)

/-- SHA-256 `Maj` function. -/
def maj (x y z : Nat) : Nat := (x &&& y) ^^^ (x &&& z) ^^^ (y &&& z)

/-- SHA-256 big sigma 0. -/
def bsig0 (x : Nat) : Nat := rotr 2 x ^^^ rotr 13 x ^^^ rotr 22 x

/-- SHA-256 big sigma 1. -/
def bsig1 (x : Nat) : Nat := rotr 6 x ^^^ rotr 11 x ^^^ rotr 25 x

/-- SHA-256 small sigma 0. -/
def ssig0 (x : Nat) : Nat := rotr 7 x ^^^ rotr 18 x ^^^ shr 3 x

/-- SHA-256 small sigma 1. -/
def ssig1 (x : Nat) : Nat := rotr 17 x ^^^ rotr 19 x ^^^ shr 10 x

/-- The 64 SHA-256 round constants (FIPS 180-4 section 4.2.2, written in
decimal). -/
def K : List Nat :=
  [1116352408, 1899447441, 3049323471, 3921009573, 961987163, 1508970993,
   2453635748, 2870763221, 3624381080, 310598401, 607225278, 1426881987,
   1925078388, 2162078206, 2614888103, 3248222580, 3835390401, 4022224774,
   264347078, 604807628, 770255983, 1249150122, 1555081692, 1996064986,
   2554220882, 2821834349, 2952996808, 3210313671, 3336571891, 3584528711,
   113926993, 338241895, 666307205, 773529912, 1294757372, 1396182291,
   1695183700, 1986661051, 2177026350, 2456956037, 2730485921, 2820302411,
   3259730800, 3345764771, 3516065817, 3600352804, 4094571909, 275423344,
   430227734, 506948616, 659060556, 883997877, 958139571, 1322822218,
   1537002063, 1747873779, 1955562222, 2024104815, 2227730452, 2361852424,
   2428436474, 2756734187, 3204031479, 3329325298]

/-- The SHA-256 initial hash value (FIPS 180-4 section 5.3.3, written in
decimal). -/
def H0 : List Nat :=
  [1779033703, 3144134277, 1013904242, 2773480762,
   1359893119, 2600822924, 528734635, 1541459225]

/-- Big-endian byte encoding of `x` on `n` bytes. -/
def toBytesBE (n x : Nat) : List Nat :=
  (List.range n).map (fun i => (x >>> (8 * (n - 1 - i))) % 256)

/-- SHA-256 padding: append `0x80`, zero bytes, and the 64-bit big-endian
bit length, reaching a multiple of 64 bytes. -/
def padMessage (msg : List Nat) : List Nat :=
  let L := msg.length
  let k := (120 - ((L + 1) % 64)) % 64
  msg ++ [0x80] ++ List.replicate k 0 ++ toBytesBE 8 (8 * L)

/-- Split a byte list into 64-byte blocks (`fuel` bounds the recursion). -/
def toBlocksAux : Nat → List Nat → List (List Nat)
  | 0, _ => []
  | _, [] => []
  | fuel + 1, l => l.take 64 :: toBlocksAux fuel (l.drop 64)

/-- Split a byte list into 64-byte blocks. -/
def toBlocks (l : List Nat) : List (List Nat) := toBlocksAux l.length l

/-- Group bytes into big-endian 32-bit words. -/
def toWordsBE : List Nat → List Nat
  | b0 :: b1 :: b2 :: b3 :: rest => (((b0 * 256 + b1) * 256 + b2) * 256 + b3) :: toWordsBE rest
  | _ => []

/-- Extend the message schedule; `acc` holds the schedule so far in
reverse order (most recent word first). -/
def extendSchedule : Nat → List Nat → List Nat
  | 0, acc => acc
  | n + 1, acc =>
      let g (i : Nat) : Nat := (acc.get? i).getD 0
      let nw := w32 (ssig1 (g 1) + g 6 + ssig0 (g 14) + g 15)
      extendSchedule n (nw :: acc)

/-- The 64-word message schedule of a 64-byte block. -/
def schedule (block : List Nat) : List Nat :=
  (extendSchedule 48 (toWordsBE block).reverse).reverse

/-- One SHA-256 compression round; the state is the 8-word working
variable list `[a, b, c, d, e, f, g, h]`. -/
def compressRound (st : List Nat) (kw : Nat × Nat) : List Nat :=
  match st with
  | [a, b, c, d, e, f, g, h] =>
      let t1 := w32 (h + bsig1 e + ch e f g + kw.1 + kw.2)
      let t2 := w32 (bsig0 a + maj a b c)
      [w32 (t1 + t2), a, b, c, w32 (d + t1), e, f, g]
  | st => st

/-- Process one 64-byte block, updating the 8-word hash state. -/
def processBlock (H : List Nat) (block : List Nat) : List Nat :=
  let st := (K.zip (schedule block)).foldl compressRound H
  (H.zip st).map (fun p => w32 (p.1 + p.2))

/-- SHA-256 of a byte string, as a list of 32 bytes. -/
def sha256 (msg : List Nat) : List Nat :=
  ((toBlocks (padMessage msg)).foldl processBlock H0).flatMap (toBytesBE 4)

/-! ## HMAC (model of `hmac.new(key, msg, hashlib.sha256)`, RFC 2104) -/

/-- HMAC-SHA256 of `msg` keyed by `key`, as a list of 32 bytes. -/
def hmacSha256 (key msg : List Nat) : List Nat :=
  let k0 := if 64 < key.length then sha256 key else key
  let kp := k0 ++ List.replicate (64 - k0.length) 0
  let ipad := kp.map (fun b => b ^^^ 0x36)
  let opad := kp.map (fun b => b ^^^ 0x5c)
  sha256 (opad ++ sha256 (ipad ++ msg))

/-! ## Lowercase hex encoding (model of `.hexdigest()`) -/

/-- Lowercase hexadecimal character for a nibble. -/
def hexChar (n : Nat) : Char := if n < 10 then Char.ofNat (48 + n) else Char.ofNat (87 + n)

/-- Two lowercase hexadecimal characters for a byte. -/
def hexByte (b : Nat) : List Char := [hexChar (b / 16), hexChar (b % 16)]

/-- Lowercase hex encoding of a byte string, as `mac.hexdigest()`
produces it. -/
def hexdigest (bs : List Nat) : List Char := bs.flatMap hexByte

/-- ASCII bytes of an ASCII string (used for concrete inputs). -/
def asciiBytes (s : String) : List Nat := s.data.map Char.toNat

/-! ## Constant-time comparison (model of `hmac.compare_digest`)

CPython's `_tscmp` (`Modules/_operator.c`): on two `str` arguments it
first requires both to be ASCII-only (otherwise it raises `TypeError`,
modelled here as `none`); it then scans a fixed number of characters —
`right` is always the second argument, `left` is the first when the
lengths agree and the second otherwise — OR-accumulating the XOR of each
character pair, and returns whether the lengths agree and the
accumulator is zero. -/

/-- Whether every character of the list is ASCII. -/
def asciiOnly (l : List Char) : Bool := l.all (fun c => c.toNat < 128)

/-- The `_tscmp` scan: OR-accumulate the XOR of corresponding
characters. -/
def tscmpLoop : List Char → List Char → Nat → Nat
  | a :: as, b :: bs, acc => tscmpLoop as bs (acc ||| (a.toNat ^^^ b.toNat))
  | _, _, acc => acc

/-- The number of character comparisons the `_tscmp` scan performs. -/
def tscmpSteps : List Char → List Char → Nat
  | _ :: as, _ :: bs => tscmpSteps as bs + 1
  | _, _ => 0

/-- Model of `hmac.compare_digest` on `str` arguments: `none` models the
`TypeError` raised on non-ASCII input, `some b` a normal return of `b`. -/
def compare_digest (a b : List Char) : Option Bool :=
  if asciiOnly a && asciiOnly b then
    if a.length = b.length then some (tscmpLoop a b 0 == 0)
    else some (tscmpLoop b b 1 == 0)
  else none

/-- The comparison-step count of `compare_digest a b`: how many
character pairs the `_tscmp` scan visits. -/
def compareDigestSteps (a b : List Char) : Nat :=
  if a.length = b.length then tscmpSteps a b else tscmpSteps b b

/-! ## `verify_signature` (from `receiver.py`)

The secret is passed explicitly (in the source it is the module-level
`WEBHOOK_SECRET`, already encoded to bytes). The result is `some b` when
the Python function returns `b`, and `none` when it raises — which can
happen only through `hmac.compare_digest` on a non-ASCII header tail. -/

/-- `verify_signature(raw_body, signature_header)` from `receiver.py`:
reject unless the header is non-empty and starts with `"sha256="`, then
compare the HMAC-SHA256 hex digest of the body against the rest of the
header with `hmac.compare_digest`. -/
def verify_signature (secret raw_body : List Nat) (signature_header : String) : Option Bool :=
  if signature_header.data = [] ∨ ¬ signature_header.data.take 7 = "sha256=".data then
    some false
  else
    compare_digest (hexdigest (hmacSha256 secret raw_body)) (signature_header.data.drop 7)

/-! ## JSON (model of `json.loads` on a byte body)

`json.loads(raw_body)` first decodes the bytes —
`raw_body.decode(json.detect_encoding(raw_body), "surrogatepass")`,
where `detect_encoding` strips a UTF-8 BOM and autodetects UTF-16/32
from BOMs or null-byte patterns; a decode failure raises
`UnicodeDecodeError`, which the endpoint does *not* catch — and then
parses the decoded text with the default decoder's grammar: values are
objects, arrays, strings, numbers, `true`, `false`, `null`, and the
default `parse_constant` accepts `NaN`, `Infinity` and `-Infinity`;
whitespace is space, tab, LF, CR; strings reject raw control characters
below 0x20 and support the standard escapes plus `\uXXXX`. The decoded
text is represented as surrogate-tolerant UTF-8 bytes (ASCII characters
are single bytes, so scanning these bytes is scanning the text; escape
sequences are encoded back the same way; surrogate-pair recombination of
adjacent `\uXXXX` escapes is outside this model). Numbers keep their
matched bytes — their numeric value never matters to the receiver. -/

/-- A parsed JSON value. Strings are kept as UTF-8 bytes; object keys
likewise. -/
inductive Json where
  | null : Json
  | bool (b : Bool) : Json
  | num (lit : List Nat) : Json
  | str (s : List Nat) : Json
  | arr (items : List Json) : Json
  | obj (fields : List (List Nat × Json)) : Json

/-- JSON whitespace bytes: space, tab, LF, CR. -/
def isWsByte (b : Nat) : Bool := b == 32 || b == 9 || b == 10 || b == 13

/-- Drop leading JSON whitespace. -/
def skipWs : List Nat → List Nat
  | b :: rest => if isWsByte b then skipWs rest else b :: rest
  | [] => []

/-- ASCII decimal digit. -/
def isDigitByte (b : Nat) : Bool := 48 ≤ b && b ≤ 57

/-- Value of an ASCII hex digit, if it is one. -/
def hexVal (b : Nat) : Option Nat :=
  if 48 ≤ b && b ≤ 57 then some (b - 48)
  else if 97 ≤ b && b ≤ 102 then some (b - 87)
  else if 65 ≤ b && b ≤ 70 then some (b - 55)
  else none

/-- Byte produced by a single-character string escape. -/
def escByte (b : Nat) : Option Nat :=
  if b == 34 then some 34        -- \"
  else if b == 92 then some 92   -- backslash
  else if b == 47 then some 47   -- /
  else if b == 98 then some 8    -- \b
  else if b == 102 then some 12  -- \f
  else if b == 110 then some 10  -- \n
  else if b == 114 then some 13  -- \r
  else if b == 116 then some 9   -- \t
  else none

/-- (Surrogate-tolerant) UTF-8 encoding of a code point up to 0x10FFFF:
used for `\uXXXX` escapes and for re-encoding decoded UTF-16/32 text. -/
def utf8Encode (cp : Nat) : List Nat :=
  if cp < 0x80 then [cp]
  else if cp < 0x800 then [0xC0 + cp / 64, 0x80 + cp % 64]
  else if cp < 0x10000 then [0xE0 + cp / 4096, 0x80 + cp / 64 % 64, 0x80 + cp % 64]
  else [0xF0 + cp / 262144, 0x80 + cp / 4096 % 64, 0x80 + cp / 64 % 64, 0x80 + cp % 64]

/-- Parse the body of a JSON string after the opening quote; returns the
content bytes and the input following the closing quote. -/
def parseStringBody : List Nat → Option (List Nat × List Nat)
  | 34 :: rest => some ([], rest)
  | 92 :: 117 :: h1 :: h2 :: h3 :: h4 :: rest =>
      match hexVal h1, hexVal h2, hexVal h3, hexVal h4 with
      | some a, some b, some c, some d =>
          (parseStringBody rest).map
            (fun p => (utf8Encode (((a * 16 + b) * 16 + c) * 16 + d) ++ p.1, p.2))
      | _, _, _, _ => none
  | 92 :: e :: rest =>
      match escByte e with
      | some b => (parseStringBody rest).map (fun p => (b :: p.1, p.2))
      | none => none
  | b :: rest =>
      if b < 32 then none
      else (parseStringBody rest).map (fun p => (b :: p.1, p.2))
  | [] => none

/-- Integer part of a JSON number: `0` or a nonzero digit followed by
digits. -/
def parseIntPart : List Nat → Option (List Nat × List Nat)
  | 48 :: rest => some ([48], rest)
  | b :: rest =>
      if 49 ≤ b && b ≤ 57 then
        let p := rest.span isDigitByte
        some (b :: p.1, p.2)
      else none
  | [] => none

/-- Optional fraction part `.digits` of a JSON number; returns the
matched bytes (empty when absent). -/
def parseFrac : List Nat → List Nat × List Nat
  | 46 :: rest =>
      match rest.span isDigitByte with
      | ([], _) => ([], 46 :: rest)
      | (ds, rest') => (46 :: ds, rest')
  | l => ([], l)

/-- Optional exponent part `[eE][+-]?digits` of a JSON number; returns
the matched bytes (empty when absent). -/
def parseExp (l : List Nat) : List Nat × List Nat :=
  match l with
  | e :: rest =>
      if e == 101 || e == 69 then
        match rest with
        | s :: rest' =>
            if s == 43 || s == 45 then
              match rest'.span isDigitByte with
              | ([], _) => ([], l)
              | (ds, rest2) => (e :: s :: ds, rest2)
            else
              match rest.span isDigitByte with
              | ([], _) => ([], l)
              | (ds, rest2) => (e :: ds, rest2)
        | [] => ([], l)
      else ([], l)
  | [] => ([], l)

/-- A JSON number per the decoder's `NUMBER_RE`; returns the matched
bytes. -/
def parseNumberLit : List Nat → Option (List Nat × List Nat)
  | 45 :: rest =>
      (parseIntPart rest).map (fun p =>
        let f := parseFrac p.2
        let e := parseExp f.2
        (45 :: p.1 ++ f.1 ++ e.1, e.2))
  | l =>
      (parseIntPart l).map (fun p =>
        let f := parseFrac p.2
        let e := parseExp f.2
        (p.1 ++ f.1 ++ e.1, e.2))

mutual

/-- Parse one JSON value (`fuel` bounds the recursion depth and is
chosen large enough in `json_decode` that it never runs out on inputs
the Python decoder accepts). -/
def parseValue : Nat → List Nat → Option (Json × List Nat)
  | 0, _ => none
  | fuel + 1, l =>
    match l with
    | [] => none
    | 34 :: rest => (parseStringBody rest).map (fun p => (Json.str p.1, p.2))
    | 123 :: rest =>
        match skipWs rest with
        | 125 :: rest' => some (Json.obj [], rest')
        | r =>
            match parseMembers fuel r with
            | some (ms, rest') => some (Json.obj ms, rest')
            | none => none
    | 91 :: rest =>
        match skipWs rest with
        | 93 :: rest' => some (Json.arr [], rest')
        | r =>
            match parseItems fuel r with
            | some (vs, rest') => some (Json.arr vs, rest')
            | none => none
    | 116 :: 114 :: 117 :: 101 :: rest => some (Json.bool true, rest)
    | 102 :: 97 :: 108 :: 115 :: 101 :: rest => some (Json.bool false, rest)
    | 110 :: 117 :: 108 :: 108 :: rest => some (Json.null, rest)
    | 78 :: 97 :: 78 :: rest => some (Json.num [78, 97, 78], rest)
    | 73 :: 110 :: 102 :: 105 :: 110 :: 105 :: 116 :: 121 :: rest =>
        some (Json.num [73, 110, 102, 105, 110, 105, 116, 121], rest)
    | 45 :: 73 :: 110 :: 102 :: 105 :: 110 :: 105 :: 116 :: 121 :: rest =>
        some (Json.num [45, 73, 110, 102, 105, 110, 105, 116, 121], rest)
    | l => (parseNumberLit l).map (fun p => (Json.num p.1, p.2))

/-- Parse the members of a JSON object after the opening brace (input
already whitespace-stripped, known not to start with `}`). -/
def parseMembers : Nat → List Nat → Option (List (List Nat × Json) × List Nat)
  | 0, _ => none
  | fuel + 1, l =>
    match l with
    | 34 :: rest =>
        match parseStringBody rest with
        | none => none
        | some (key, r1) =>
            match skipWs r1 with
            | 58 :: r2 =>
                match parseValue fuel (skipWs r2) with
                | none => none
                | some (v, r3) =>
                    match skipWs r3 with
                    | 44 :: r4 =>
                        match parseMembers fuel (skipWs r4) with
                        | some (ms, r5) => some ((key, v) :: ms, r5)
                        | none => none
                    | 125 :: r4 => some ([(key, v)], r4)
                    | _ => none
            | _ => none
    | _ => none

/-- Parse the items of a JSON array after the opening bracket (input
already whitespace-stripped, known not to start with `]`). -/
def parseItems : Nat → List Nat → Option (List Json × List Nat)
  | 0, _ => none
  | fuel + 1, l =>
    match parseValue fuel l with
    | none => none
    | some (v, r1) =>
        match skipWs r1 with
        | 44 :: r2 =>
            match parseItems fuel (skipWs r2) with
            | some (vs, r3) => some (v :: vs, r3)
            | none => none
        | 93 :: r2 => some ([v], r2)
        | _ => none

end

/-- Strict UTF-8 validity (what `bytes.decode("utf-8")` with the default
error handler accepts): rejects overlong encodings, surrogates and code
points above 0x10FFFF. Kept as the UTF-8-body predicate some claim
hypotheses use; `json.loads` itself decodes with `surrogatepass`
(`utf8ValidSp` below). -/
def utf8Valid : List Nat → Bool
  | [] => true
  | b :: rest =>
      if b < 0x80 then utf8Valid rest
      else if 0xC2 ≤ b && b ≤ 0xDF then
        match rest with
        | c1 :: rest' => (0x80 ≤ c1 && c1 ≤ 0xBF) && utf8Valid rest'
        | [] => false
      else if b == 0xE0 then
        match rest with
        | c1 :: c2 :: rest' =>
            (0xA0 ≤ c1 && c1 ≤ 0xBF) && (0x80 ≤ c2 && c2 ≤ 0xBF) && utf8Valid rest'
        | _ => false
      else if (0xE1 ≤ b && b ≤ 0xEC) || b == 0xEE || b == 0xEF then
        match rest with
        | c1 :: c2 :: rest' =>
            (0x80 ≤ c1 && c1 ≤ 0xBF) && (0x80 ≤ c2 && c2 ≤ 0xBF) && utf8Valid rest'
        | _ => false
      else if b == 0xED then
        match rest with
        | c1 :: c2 :: rest' =>
            (0x80 ≤ c1 && c1 ≤ 0x9F) && (0x80 ≤ c2 && c2 ≤ 0xBF) && utf8Valid rest'
        | _ => false
      else if b == 0xF0 then
        match rest with
        | c1 :: c2 :: c3 :: rest' =>
            (0x90 ≤ c1 && c1 ≤ 0xBF) && (0x80 ≤ c2 && c2 ≤ 0xBF) &&
              (0x80 ≤ c3 && c3 ≤ 0xBF) && utf8Valid rest'
        | _ => false
      else if 0xF1 ≤ b && b ≤ 0xF3 then
        match rest with
        | c1 :: c2 :: c3 :: rest' =>
            (0x80 ≤ c1 && c1 ≤ 0xBF) && (0x80 ≤ c2 && c2 ≤ 0xBF) &&
              (0x80 ≤ c3 && c3 ≤ 0xBF) && utf8Valid rest'
        | _ => false
      else if b == 0xF4 then
        match rest with
        | c1 :: c2 :: c3 :: rest' =>
            (0x80 ≤ c1 && c1 ≤ 0x8F) && (0x80 ≤ c2 && c2 ≤ 0xBF) &&
              (0x80 ≤ c3 && c3 ≤ 0xBF) && utf8Valid rest'
        | _ => false
      else false

/-- UTF-8 validity under the `surrogatepass` error handler, which
`json.loads` decodes with: like `utf8Valid` but the three-byte
encodings of surrogates (lead byte 0xED, continuation 0xA0–0xBF) are
accepted too, so the 0xED lead byte behaves like 0xE1–0xEF. -/
def utf8ValidSp : List Nat → Bool
  | [] => true
  | b :: rest =>
      if b < 0x80 then utf8ValidSp rest
      else if 0xC2 ≤ b && b ≤ 0xDF then
        match rest with
        | c1 :: rest' => (0x80 ≤ c1 && c1 ≤ 0xBF) && utf8ValidSp rest'
        | [] => false
      else if b == 0xE0 then
        match rest with
        | c1 :: c2 :: rest' =>
            (0xA0 ≤ c1 && c1 ≤ 0xBF) && (0x80 ≤ c2 && c2 ≤ 0xBF) && utf8ValidSp rest'
        | _ => false
      else if 0xE1 ≤ b && b ≤ 0xEF then
        match rest with
        | c1 :: c2 :: rest' =>
            (0x80 ≤ c1 && c1 ≤ 0xBF) && (0x80 ≤ c2 && c2 ≤ 0xBF) && utf8ValidSp rest'
        | _ => false
      else if b == 0xF0 then
        match rest with
        | c1 :: c2 :: c3 :: rest' =>
            (0x90 ≤ c1 && c1 ≤ 0xBF) && (0x80 ≤ c2 && c2 ≤ 0xBF) &&
              (0x80 ≤ c3 && c3 ≤ 0xBF) && utf8ValidSp rest'
        | _ => false
      else if 0xF1 ≤ b && b ≤ 0xF3 then
        match rest with
        | c1 :: c2 :: c3 :: rest' =>
            (0x80 ≤ c1 && c1 ≤ 0xBF) && (0x80 ≤ c2 && c2 ≤ 0xBF) &&
              (0x80 ≤ c3 && c3 ≤ 0xBF) && utf8ValidSp rest'
        | _ => false
      else if b == 0xF4 then
        match rest with
        | c1 :: c2 :: c3 :: rest' =>
            (0x80 ≤ c1 && c1 ≤ 0x8F) && (0x80 ≤ c2 && c2 ≤ 0xBF) &&
              (0x80 ≤ c3 && c3 ≤ 0xBF) && utf8ValidSp rest'
        | _ => false
      else false

/-- The encodings `json.detect_encoding` can select. `utf16` and `utf32`
are the BOM-marked generic codecs; the others are the explicit-endian or
UTF-8 forms. -/
inductive PyEncoding where
  | utf8 : PyEncoding
  | utf8sig : PyEncoding
  | utf16 : PyEncoding
  | utf16le : PyEncoding
  | utf16be : PyEncoding
  | utf32 : PyEncoding
  | utf32le : PyEncoding
  | utf32be : PyEncoding
deriving DecidableEq

/-- `json.detect_encoding(b)`: UTF-32 BOMs first, then UTF-16 BOMs, then
the UTF-8 BOM; without a BOM, null-byte patterns in the first four bytes
(or, for a two-byte input, in those two) select an explicit-endian
UTF-16/32; otherwise UTF-8. -/
def detect_encoding (b : List Nat) : PyEncoding :=
  match b with
  | 0x00 :: 0x00 :: 0xFE :: 0xFF :: _ => .utf32
  | 0xFF :: 0xFE :: 0x00 :: 0x00 :: _ => .utf32
  | 0xFE :: 0xFF :: _ => .utf16
  | 0xFF :: 0xFE :: _ => .utf16
  | 0xEF :: 0xBB :: 0xBF :: _ => .utf8sig
  | b0 :: b1 :: b2 :: b3 :: _ =>
      if b0 == 0 then (if b1 != 0 then .utf16be else .utf32be)
      else if b1 == 0 then (if b2 != 0 || b3 != 0 then .utf16le else .utf32le)
      else .utf8
  | [b0, b1] =>
      if b0 == 0 then .utf16be
      else if b1 == 0 then .utf16le
      else .utf8
  | _ => .utf8

/-- Group bytes into 16-bit units (little- or big-endian); `none` models
the truncated-data `UnicodeDecodeError` on an odd byte count. -/
def utf16Units (le : Bool) : List Nat → Option (List Nat)
  | [] => some []
  | b0 :: b1 :: rest =>
      (utf16Units le rest).map (fun us => (if le then b1 * 256 + b0 else b0 * 256 + b1) :: us)
  | _ => none

/-- Combine UTF-16 surrogate pairs into code points; lone surrogates
pass through, as the `surrogatepass` error handler restores them. -/
def utf16Combine : List Nat → List Nat
  | u1 :: u2 :: rest =>
      if 0xD800 ≤ u1 && u1 ≤ 0xDBFF && 0xDC00 ≤ u2 && u2 ≤ 0xDFFF then
        (0x10000 + (u1 - 0xD800) * 1024 + (u2 - 0xDC00)) :: utf16Combine rest
      else u1 :: utf16Combine (u2 :: rest)
  | l => l

/-- The `utf-16` codec (with `surrogatepass`): a leading BOM selects the
byte order and is stripped; without one CPython uses the platform order
(little-endian here — unreachable via `detect_encoding`, which selects
`utf-16` only on a BOM). -/
def utf16DecodeBom (b : List Nat) : Option (List Nat) :=
  match b with
  | 0xFF :: 0xFE :: rest => (utf16Units true rest).map utf16Combine
  | 0xFE :: 0xFF :: rest => (utf16Units false rest).map utf16Combine
  | rest => (utf16Units true rest).map utf16Combine

/-- Decode 32-bit code units (with `surrogatepass`, so surrogates pass);
`none` models `UnicodeDecodeError` on truncated data or a value above
0x10FFFF. -/
def utf32DecodeUnits (le : Bool) : List Nat → Option (List Nat)
  | [] => some []
  | b0 :: b1 :: b2 :: b3 :: rest =>
      let cp := if le then ((b3 * 256 + b2) * 256 + b1) * 256 + b0
                else ((b0 * 256 + b1) * 256 + b2) * 256 + b3
      if cp ≤ 0x10FFFF then (utf32DecodeUnits le rest).map (fun cps => cp :: cps) else none
  | _ => none

/-- The `utf-32` codec (with `surrogatepass`): a leading BOM selects the
byte order and is stripped (no-BOM case unreachable via
`detect_encoding`). -/
def utf32DecodeBom (b : List Nat) : Option (List Nat) :=
  match b with
  | 0x00 :: 0x00 :: 0xFE :: 0xFF :: rest => utf32DecodeUnits false rest
  | 0xFF :: 0xFE :: 0x00 :: 0x00 :: rest => utf32DecodeUnits true rest
  | rest => utf32DecodeUnits true rest

/-- `raw_body.decode(json.detect_encoding(raw_body), "surrogatepass")`:
the decoded text, represented as surrogate-tolerant UTF-8 bytes for the
grammar scanner; `none` models `UnicodeDecodeError`. -/
def pythonDecode (b : List Nat) : Option (List Nat) :=
  match detect_encoding b with
  | .utf8 => if utf8ValidSp b then some b else none
  | .utf8sig => if utf8ValidSp (b.drop 3) then some (b.drop 3) else none
  | .utf16 => (utf16DecodeBom b).map (fun cps => cps.flatMap utf8Encode)
  | .utf16le => (utf16Units true b).map (fun us => (utf16Combine us).flatMap utf8Encode)
  | .utf16be => (utf16Units false b).map (fun us => (utf16Combine us).flatMap utf8Encode)
  | .utf32 => (utf32DecodeBom b).map (fun cps => cps.flatMap utf8Encode)
  | .utf32le => (utf32DecodeUnits true b).map (fun cps => cps.flatMap utf8Encode)
  | .utf32be => (utf32DecodeUnits false b).map (fun cps => cps.flatMap utf8Encode)

/-- The default `JSONDecoder.decode` on the decoded text: parse one
value with surrounding whitespace; anything left over is an error
(`none` models `json.JSONDecodeError`). -/
def json_decode (text : List Nat) : Option Json :=
  match parseValue (2 * text.length + 2) (skipWs text) with
  | some (v, rest) => if skipWs rest = [] then some v else none
  | none => none

/-- `json.loads(raw_body)`: decode the bytes per the detected encoding,
then parse the text; `none` when either step fails (inside `webhook` the
two failures differ: a decode failure raises `UnicodeDecodeError`, a
parse failure `json.JSONDecodeError`). -/
def json_loads (body : List Nat) : Option Json :=
  (pythonDecode body).bind json_decode

/-- Whether a JSON value is an object (a Python `dict`, the only
`json.loads` result with a `.get` method). -/
def Json.isObj : Json → Bool
  | .obj _ => true
  | _ => false

/-- `payload.get(key)`: the value at `key` in a parsed object. Python
builds the `dict` front to back, so a duplicate key keeps its last
occurrence. -/
def jget (fields : List (List Nat × Json)) (key : List Nat) : Option Json :=
  (fields.reverse.find? (fun p => p.1 == key)).map (fun p => p.2)

/-- Python's `x == "…"` for a `json.loads` result: true exactly when
`x` is the string with those bytes. -/
def isStr (v : Option Json) (s : List Nat) : Bool :=
  match v with
  | some (.str t) => t == s
  | _ => false

/-! ## The `POST /webhook` endpoint (from `receiver.py`) -/

/-- Outcome of a request, as observable by the sender. `aborted n`
models Flask's `abort(n)`; the two `raised` constructors model uncaught
exceptions (Flask surfaces both as a 500 response): `raisedTypeError`
from `hmac.compare_digest` on a non-ASCII header and
`raisedAttributeError` from `payload.get` when `payload` is not a dict;
`raisedUnicodeDecodeError` models `json.loads` on a body its detected
codec cannot decode (not caught by `except json.JSONDecodeError`). -/
inductive Resp where
  | response (status : Nat) (body : String) : Resp
  | aborted (status : Nat) : Resp
  | raisedTypeError : Resp
  | raisedUnicodeDecodeError : Resp
  | raisedAttributeError : Resp
deriving DecidableEq

/-- Observable actions the endpoint performs after reading the raw body
and header. `loggedInvalidSig` is the warning log carrying only the
remote address; `parsedBody` is the `json.loads(raw_body)` call;
`dispatchedHandler` is the `handle_repository_created(payload)` call. -/
inductive Action where
  | loggedInvalidSig : Action
  | parsedBody : Action
  | loggedParseError : Action
  | dispatchedHandler : Action
  | loggedIgnoredEvent : Action
deriving DecidableEq

/-- The key `"event_type"` as bytes. -/
def eventTypeKey : List Nat := asciiBytes "event_type"

/-- The recognized event type `"repository.created"` as bytes. -/
def repositoryCreated : List Nat := asciiBytes "repository.created"

/-- The `webhook()` view function: verify the signature (401 on
failure), parse the body as JSON (400 on failure), dispatch on
`event_type`, and acknowledge with an empty 204. Returns the response
together with the trace of observable actions, in order. -/
def webhook (secret raw_body : List Nat) (signature : String) : Resp × List Action :=
  match verify_signature secret raw_body signature with
  | none => (.raisedTypeError, [])
  | some false => (.aborted 401, [.loggedInvalidSig])
  | some true =>
      match pythonDecode raw_body with
      | none => (.raisedUnicodeDecodeError, [.parsedBody])
      | some text =>
          match json_decode text with
          | none => (.aborted 400, [.parsedBody, .loggedParseError])
          | some (.obj fields) =>
              if isStr (jget fields eventTypeKey) repositoryCreated then
                (.response 204 "", [.parsedBody, .dispatchedHandler])
              else
                (.response 204 "", [.parsedBody, .loggedIgnoredEvent])
          | some _ => (.raisedAttributeError, [.parsedBody])

/-! ## Test vectors for the primitive models -/

/-- FIPS 180-4 test vector: SHA-256 of the empty message. -/
theorem sha256_empty_vector :
    (hexdigest (sha256 [])).asString =
      "e3b0c44298fc1c149afbf4c8996fb92427ae41e4649b934ca495991b7852b855" := by decide

/-- FIPS 180-4 test vector: SHA-256 of `"abc"`. -/
theorem sha256_abc_vector :
    (hexdigest (sha256 (asciiBytes "abc"))).asString =
      "ba7816bf8f01cfea414140de5dae2223b00361a396177a9cb410ff61f20015ad" := by decide

/-- RFC 4231 test case 2 for HMAC-SHA256. -/
theorem hmac_rfc4231_vector :
    (hexdigest (hmacSha256 (asciiBytes "Jefe") (asciiBytes "what do ya want for nothing?"))).asString =
      "5bdcc146bf60754e6a042426089575c75a003f089d2739839dec58b964ec3843" := by decide

/-- End-to-end vector: the verifier accepts the correct header for the
spec's sample secret (digest computed independently). -/
theorem verify_signature_vector :
    verify_signature (asciiBytes "s3cr3t") []
      "sha256=3c81cc9496e1c25250f6ccb85f697c1bb623e3480d6538ad8cb6a6648142777d" = some true := by
  decide

/-- Decode vector: a signed body carrying a UTF-8 BOM before `\x7b\x7d`
decodes as utf-8-sig to the empty object and is acknowledged with 204. -/
theorem webhook_utf8sig_vector :
    webhook (asciiBytes "s3cr3t") [0xEF, 0xBB, 0xBF, 0x7B, 0x7D]
      "sha256=4567d363315e924a1770cc8b15776cacaf8985df3e779551acd2c46be165ae48" =
      (Resp.response 204 "", [Action.parsedBody, Action.loggedIgnoredEvent]) := by
  decide

/-- Decode vector: the null-pattern body `00 7B 00 7D` is autodetected
as UTF-16-BE, decodes to the empty object, and is acknowledged with
204. -/
theorem webhook_utf16_autodetect_vector :
    webhook (asciiBytes "s3cr3t") [0x00, 0x7B, 0x00, 0x7D]
      "sha256=cce6390fbe4b6c256a2274e85050c60f6760ade904c6a320efbb6688faa2c90a" =
      (Resp.response 204 "", [Action.parsedBody, Action.loggedIgnoredEvent]) := by
  decide

/-! ## Properties of the comparison scan -/

/-- Both disjuncts of a zero OR are zero. -/
theorem lor_eq_zero {a b : Nat} (h : a ||| b = 0) : a = 0 ∧ b = 0 := by
  constructor <;>
  · apply Nat.eq_of_testBit_eq
    intro k
    have h2 := congrArg (fun x => Nat.testBit x k) h
    simp only [Nat.testBit_or, Nat.zero_testBit, Bool.or_eq_false_iff] at h2
    simp [h2.1, h2.2]

/-- Characters with equal code points are equal. -/
theorem char_eq_of_toNat_eq {a b : Char} (h : a.toNat = b.toNat) : a = b :=
  Char.eq_of_val_eq (UInt32.ext h)

/-- Scanning a list against itself leaves the accumulator unchanged. -/
theorem tscmpLoop_self (l : List Char) (acc : Nat) : tscmpLoop l l acc = acc := by
  induction l generalizing acc with
  | nil => rfl
  | cons a as ih => simp [tscmpLoop, Nat.xor_self, ih]

/-- A zero scan result forces a zero accumulator. -/
theorem tscmpLoop_acc_zero : ∀ (l r : List Char) (acc : Nat), tscmpLoop l r acc = 0 → acc = 0
  | [], _, _, h => h
  | _ :: _, [], _, h => h
  | _ :: as, _ :: bs, _, h => (lor_eq_zero (tscmpLoop_acc_zero as bs _ h)).1

/-- A zero scan over equal-length lists forces the lists equal. -/
theorem tscmpLoop_eq_of_zero :
    ∀ (l r : List Char), l.length = r.length → tscmpLoop l r 0 = 0 → l = r
  | [], [], _, _ => rfl
  | a :: as, b :: bs, hlen, h => by
    have hx : (0 ||| (a.toNat ^^^ b.toNat)) = 0 := tscmpLoop_acc_zero as bs _ h
    rw [Nat.zero_or] at hx
    have hab : a = b := char_eq_of_toNat_eq (Nat.xor_eq_zero.mp hx)
    have h0 : tscmpLoop as bs 0 = 0 := by
      have := h
      simp only [tscmpLoop] at this
      rwa [Nat.zero_or, hx] at this
    have := tscmpLoop_eq_of_zero as bs (by simpa using hlen) h0
    rw [hab, this]

/-- The scan visits `min` of the two lengths many character pairs. -/
theorem tscmpSteps_eq_min : ∀ (l r : List Char), tscmpSteps l r = min l.length r.length
  | [], [] => rfl
  | [], _ :: _ => by simp [tscmpSteps]
  | _ :: _, [] => by simp [tscmpSteps]
  | _ :: as, _ :: bs => by
    simp [tscmpSteps, tscmpSteps_eq_min as bs, Nat.succ_min_succ]

/-- `compare_digest` on two equal ASCII strings returns `True`. -/
theorem compare_digest_self {a : List Char} (ha : asciiOnly a = true) :
    compare_digest a a = some true := by
  simp [compare_digest, ha, tscmpLoop_self]

/-- `compare_digest` on two different ASCII strings returns `False`
(and raises nothing). -/
theorem compare_digest_of_ne {a b : List Char} (ha : asciiOnly a = true)
    (hb : asciiOnly b = true) (hne : a ≠ b) : compare_digest a b = some false := by
  simp only [compare_digest, ha, hb, Bool.and_self, if_true]
  by_cases hlen : a.length = b.length
  · rw [if_pos hlen]
    have : tscmpLoop a b 0 ≠ 0 := fun h0 => hne (tscmpLoop_eq_of_zero a b hlen h0)
    simp [this]
  · rw [if_neg hlen]
    simp [tscmpLoop_self]

/-! ## Shape of the hex digest -/

/-- The 16 lowercase hex characters. -/
def hexChars : List Char := "0123456789abcdef".data

/-- `hexChar` of a nibble is one of the 16 hex characters. -/
theorem hexChar_mem {n : Nat} (h : n < 16) : hexChar n ∈ hexChars := by
  interval_cases n <;> decide

/-- Every character of the hex encoding of genuine bytes is a hex
character. -/
theorem hexdigest_mem {bs : List Nat} (hb : ∀ b ∈ bs, b < 256) :
    ∀ c ∈ hexdigest bs, c ∈ hexChars := by
  intro c hc
  simp only [hexdigest, List.mem_flatMap] at hc
  obtain ⟨b, hbmem, hcb⟩ := hc
  have hblt := hb b hbmem
  simp only [hexByte, List.mem_cons, List.not_mem_nil, or_false] at hcb
  rcases hcb with rfl | rfl
  · exact hexChar_mem (Nat.div_lt_of_lt_mul (by omega))
  · exact hexChar_mem (Nat.mod_lt _ (by omega))

/-- Bytes produced by `toBytesBE` are below 256. -/
theorem toBytesBE_lt (n x : Nat) : ∀ b ∈ toBytesBE n x, b < 256 := by
  intro b hb
  simp only [toBytesBE, List.mem_map] at hb
  obtain ⟨i, _, rfl⟩ := hb
  exact Nat.mod_lt _ (by omega)

/-- Bytes produced by `sha256` are below 256. -/
theorem sha256_lt (m : List Nat) : ∀ b ∈ sha256 m, b < 256 := by
  intro b hb
  simp only [sha256, List.mem_flatMap] at hb
  obtain ⟨w, _, hbw⟩ := hb
  exact toBytesBE_lt 4 w b hbw

/-- Hex-character strings are ASCII. -/
theorem asciiOnly_of_hexChars {l : List Char} (h : ∀ c ∈ l, c ∈ hexChars) :
    asciiOnly l = true := by
  simp only [asciiOnly, List.all_eq_true, decide_eq_true_eq]
  intro c hc
  have hall : ∀ x ∈ hexChars, x.toNat < 128 := by decide
  exact hall c (h c hc)

/-- The computed HMAC hex digest is ASCII. -/
theorem asciiOnly_hexdigest_hmac (key msg : List Nat) :
    asciiOnly (hexdigest (hmacSha256 key msg)) = true :=
  asciiOnly_of_hexChars (hexdigest_mem (sha256_lt _))

/-- `toBytesBE` produces exactly `n` bytes. -/
theorem length_toBytesBE (n x : Nat) : (toBytesBE n x).length = n := by
  simp [toBytesBE]

/-- A compression round preserves the state length. -/
theorem length_compressRound (st : List Nat) (kw : Nat × Nat) :
    (compressRound st kw).length = st.length := by
  unfold compressRound
  split <;> rfl

/-- Folding compression rounds preserves the state length. -/
theorem length_foldl_compressRound (l : List (Nat × Nat)) :
    ∀ st : List Nat, (l.foldl compressRound st).length = st.length := by
  induction l with
  | nil => intro st; rfl
  | cons x xs ih => intro st; rw [List.foldl_cons, ih, length_compressRound]

/-- Processing a block preserves the state length. -/
theorem length_processBlock (H b : List Nat) : (processBlock H b).length = H.length := by
  simp [processBlock, List.length_zip, length_foldl_compressRound]

/-- Folding block processing preserves the state length. -/
theorem length_foldl_processBlock (blocks : List (List Nat)) :
    ∀ H : List Nat, (blocks.foldl processBlock H).length = H.length := by
  induction blocks with
  | nil => intro H; rfl
  | cons b bs ih => intro H; rw [List.foldl_cons, ih, length_processBlock]

/-- Serializing words to 4 bytes each quadruples the length. -/
theorem length_flatMap_toBytesBE (l : List Nat) :
    (l.flatMap (toBytesBE 4)).length = 4 * l.length := by
  induction l with
  | nil => rfl
  | cons x xs ih =>
      simp only [List.flatMap_cons, List.length_append, length_toBytesBE, ih, List.length_cons]
      omega

/-- SHA-256 produces 32 bytes. -/
theorem length_sha256 (m : List Nat) : (sha256 m).length = 32 := by
  rw [sha256, length_flatMap_toBytesBE, length_foldl_processBlock]
  rfl

/-- The hex encoding has two characters per byte. -/
theorem length_hexdigest (bs : List Nat) : (hexdigest bs).length = 2 * bs.length := by
  induction bs with
  | nil => rfl
  | cons b rest ih =>
      have h2 : (hexByte b).length = 2 := rfl
      simp only [hexdigest, List.flatMap_cons, List.length_append, List.length_cons] at *
      omega

/-- The HMAC hex digest has 64 characters. -/
theorem length_hexdigest_hmac (key msg : List Nat) :
    (hexdigest (hmacSha256 key msg)).length = 64 := by
  have : hmacSha256 key msg = sha256
      ((((if 64 < key.length then sha256 key else key) ++
          List.replicate (64 - (if 64 < key.length then sha256 key else key).length) 0).map
            (fun b => b ^^^ 0x5c)) ++
        sha256 ((((if 64 < key.length then sha256 key else key) ++
          List.replicate (64 - (if 64 < key.length then sha256 key else key).length) 0).map
            (fun b => b ^^^ 0x36)) ++ msg)) := rfl
  rw [length_hexdigest, this, length_sha256]

/-! ## Behaviour of `verify_signature` on decomposed headers -/

/-- When the header is `"sha256="` followed by `d`, the verifier reduces
to the constant-time comparison of the computed digest with `d`. -/
theorem verify_eq_of_data (secret body : List Nat) (header : String) (d : List Char)
    (hdata : header.data = "sha256=".data ++ d) :
    verify_signature secret body header =
      compare_digest (hexdigest (hmacSha256 secret body)) d := by
  have h7 : ("sha256=".data).length = 7 := rfl
  have htake : header.data.take 7 = "sha256=".data := by
    rw [hdata]; exact List.take_left' h7
  have hdrop : header.data.drop 7 = d := by
    rw [hdata]; exact List.drop_left' h7
  have hne : ¬ (header.data = [] ∨ ¬ header.data.take 7 = "sha256=".data) := by
    intro hor
    rcases hor with habs | habs
    · rw [hdata] at habs
      have : ("sha256=".data : List Char) = [] := (List.append_eq_nil.mp habs).1
      exact absurd this (by decide)
    · exact habs htake
  unfold verify_signature
  rw [if_neg hne, hdrop]
/-- Elements of a list that maps to itself are fixed points. -/
theorem map_eq_self_mem {α : Type} {f : α → α} {l : List α} (h : l.map f = l) :
    ∀ c ∈ l, f c = c := by
  induction l with
  | nil => intro c hc; exact absurd hc (List.not_mem_nil c)
  | cons a as ih =>
      rw [List.map_cons, List.cons.injEq] at h
      intro c hc
      rcases List.mem_cons.mp hc with rfl | hc
      · exact h.1
      · exact ih h.2 c hc

/-- The uppercased HMAC hex digest is still ASCII. -/
theorem asciiOnly_upper_hexdigest (key msg : List Nat) :
    asciiOnly ((hexdigest (hmacSha256 key msg)).map Char.toUpper) = true := by
  simp only [asciiOnly, List.all_eq_true, decide_eq_true_eq]
  intro c hc
  rw [List.mem_map] at hc
  obtain ⟨c0, hc0, rfl⟩ := hc
  have hm := hexdigest_mem (sha256_lt _) c0 hc0
  have hall : ∀ x ∈ hexChars, (Char.toUpper x).toNat < 128 := by decide
  exact hall c0 hm

/-- A failed verification makes the endpoint abort with 401 after the
warning log, regardless of the header or body. -/
theorem webhook_of_verify_false {secret raw_body : List Nat} {signature : String}
    (h : verify_signature secret raw_body signature = some false) :
    webhook secret raw_body signature = (Resp.aborted 401, [Action.loggedInvalidSig]) := by
  unfold webhook
  rw [h]

/-! ## The claims -/

/-- C1: for every secret byte string and every payload byte string,
`verify_signature` on the header `"sha256="` followed by the lowercase
hex encoding of HMAC-SHA256(secret, payload) returns `True` (the empty
payload included). -/
theorem claim1_correct_signature_accepted (secret raw_body : List Nat) :
    verify_signature secret raw_body
      ("sha256=" ++ (hexdigest (hmacSha256 secret raw_body)).asString) = some true := by
  have hdata : ("sha256=" ++ (hexdigest (hmacSha256 secret raw_body)).asString).data =
      "sha256=".data ++ hexdigest (hmacSha256 secret raw_body) := by
    rw [String.data_append]
    rfl
  rw [verify_eq_of_data secret raw_body _ _ hdata]
  exact compare_digest_self (asciiOnly_hexdigest_hmac _ _)

/-- C3: `verify_signature` returns `False` — rather than raising — when
the header lacks the `"sha256="` prefix, when the header is empty, and
when the header is correctly prefixed but carries an (ASCII) digest of
the wrong length or the wrong value. -/
theorem claim3_malformed_header_rejected (secret raw_body : List Nat) (header : String)
    (d : List Char) :
    (¬ header.data.take 7 = "sha256=".data →
        verify_signature secret raw_body header = some false)
    ∧ (header = "" → verify_signature secret raw_body header = some false)
    ∧ (header.data = "sha256=".data ++ d → asciiOnly d = true → d.length ≠ 64 →
        verify_signature secret raw_body header = some false)
    ∧ (header.data = "sha256=".data ++ d → asciiOnly d = true →
        d ≠ hexdigest (hmacSha256 secret raw_body) →
        verify_signature secret raw_body header = some false) := by
  refine ⟨?_, ?_, ?_, ?_⟩
  · intro hpre
    unfold verify_signature
    rw [if_pos (Or.inr hpre)]
  · intro h
    subst h
    rfl
  · intro hdata hascii hlen
    rw [verify_eq_of_data secret raw_body header d hdata]
    refine compare_digest_of_ne (asciiOnly_hexdigest_hmac _ _) hascii (fun he => ?_)
    exact hlen (he ▸ length_hexdigest_hmac secret raw_body)
  · intro hdata hascii hne
    rw [verify_eq_of_data secret raw_body header d hdata]
    exact compare_digest_of_ne (asciiOnly_hexdigest_hmac _ _) hascii (fun he => hne he.symm)

/-- Witness for C3: concrete rejections — wrong prefix, empty header,
too-short digest, full-length wrong digest — all return `False`. -/
theorem claim3_witness :
    verify_signature (asciiBytes "s3cr3t") (asciiBytes "x") "md5=0000" = some false
    ∧ verify_signature (asciiBytes "s3cr3t") (asciiBytes "x") "" = some false
    ∧ verify_signature (asciiBytes "s3cr3t") (asciiBytes "x") "sha256=abc" = some false
    ∧ verify_signature (asciiBytes "s3cr3t") (asciiBytes "x")
        "sha256=0000000000000000000000000000000000000000000000000000000000000000" =
        some false := by
  refine ⟨?_, ?_, ?_, ?_⟩
  · exact (claim3_malformed_header_rejected (asciiBytes "s3cr3t") (asciiBytes "x")
      "md5=0000" []).1 (by decide)
  · exact (claim3_malformed_header_rejected (asciiBytes "s3cr3t") (asciiBytes "x")
      "" []).2.1 rfl
  · exact (claim3_malformed_header_rejected (asciiBytes "s3cr3t") (asciiBytes "x")
      "sha256=abc" "abc".data).2.2.1 (by decide) (by decide) (by decide)
  · exact (claim3_malformed_header_rejected (asciiBytes "s3cr3t") (asciiBytes "x")
      "sha256=0000000000000000000000000000000000000000000000000000000000000000"
      ("0000000000000000000000000000000000000000000000000000000000000000".data)).2.2.2
      (by decide) (by decide) (by decide)

/-- C4: on a failed verification the endpoint answers 401, the trace is
exactly the warning log (which carries no payload data), and in
particular the body is never JSON-parsed and no handler runs. -/
theorem claim4_unverified_payload_unused (secret raw_body : List Nat) (signature : String)
    (h : verify_signature secret raw_body signature = some false) :
    webhook secret raw_body signature = (Resp.aborted 401, [Action.loggedInvalidSig])
    ∧ Action.parsedBody ∉ (webhook secret raw_body signature).2
    ∧ Action.dispatchedHandler ∉ (webhook secret raw_body signature).2 := by
  have hw := webhook_of_verify_false h
  refine ⟨hw, ?_, ?_⟩ <;> rw [hw] <;> decide

/-- Witness for C4: a request with no signature header is rejected with
401 and nothing beyond the warning log happens. -/
theorem claim4_witness :
    webhook (asciiBytes "s3cr3t") (asciiBytes "{}") "" =
      (Resp.aborted 401, [Action.loggedInvalidSig])
    ∧ Action.parsedBody ∉ (webhook (asciiBytes "s3cr3t") (asciiBytes "{}") "").2
    ∧ Action.dispatchedHandler ∉ (webhook (asciiBytes "s3cr3t") (asciiBytes "{}") "").2 :=
  claim4_unverified_payload_unused (asciiBytes "s3cr3t") (asciiBytes "{}") "" rfl

/-- C5: the number of character comparisons `hmac.compare_digest`
performs depends only on the operand lengths — two candidate digests of
the same length cost the same, wherever their first mismatch with the
computed digest lies. -/
theorem claim5_constant_time_comparison (a b b' : List Char) (h : b.length = b'.length) :
    compareDigestSteps a b = compareDigestSteps a b' := by
  unfold compareDigestSteps
  by_cases hab : a.length = b.length
  · rw [if_pos hab, if_pos (hab.trans h), tscmpSteps_eq_min, tscmpSteps_eq_min, h]
  · rw [if_neg hab, if_neg (fun hc => hab (hc.trans h.symm)), tscmpSteps_eq_min,
      tscmpSteps_eq_min, h]

/-- Witness for C5: candidates mismatching the computed string at
position 1 and at position 0 take the same number of comparison steps. -/
theorem claim5_witness :
    compareDigestSteps "ab".data "ax".data = compareDigestSteps "ab".data "xb".data :=
  claim5_constant_time_comparison "ab".data "ax".data "xb".data (by decide)

/-- C6: a request with a missing (empty) signature header and a request
for the same payload with a present but wrong (ASCII) digest produce
identical outcomes — the same 401 abort and the same trace. -/
theorem claim6_missing_vs_wrong_same_response (secret raw_body : List Nat) (d : List Char)
    (hascii : asciiOnly d = true) (hne : d ≠ hexdigest (hmacSha256 secret raw_body)) :
    webhook secret raw_body "" = webhook secret raw_body (("sha256=".data ++ d).asString)
    ∧ (webhook secret raw_body "").1 = Resp.aborted 401 := by
  have h1 : verify_signature secret raw_body "" = some false := rfl
  have h2 : verify_signature secret raw_body (("sha256=".data ++ d).asString) = some false := by
    rw [verify_eq_of_data secret raw_body (("sha256=".data ++ d).asString) d rfl]
    exact compare_digest_of_ne (asciiOnly_hexdigest_hmac _ _) hascii (fun he => hne he.symm)
  refine ⟨?_, ?_⟩
  · rw [webhook_of_verify_false h1, webhook_of_verify_false h2]
  · rw [webhook_of_verify_false h1]

/-- Witness for C6: missing header versus `sha256=deadbeef` — identical
401 outcomes. -/
theorem claim6_witness :
    webhook (asciiBytes "s3cr3t") (asciiBytes "{}") "" =
      webhook (asciiBytes "s3cr3t") (asciiBytes "{}") (("sha256=".data ++ "deadbeef".data).asString)
    ∧ (webhook (asciiBytes "s3cr3t") (asciiBytes "{}") "").1 = Resp.aborted 401 :=
  claim6_missing_vs_wrong_same_response (asciiBytes "s3cr3t") (asciiBytes "{}")
    "deadbeef".data (by decide) (by decide)

/-- C10: the digest comparison is case-sensitive — whenever the lowercase
hex digest contains a letter, presenting the correct digest uppercased
makes `verify_signature` return `False`. -/
theorem claim10_uppercase_digest_rejected (secret raw_body : List Nat)
    (hletter : ∃ c ∈ hexdigest (hmacSha256 secret raw_body), c ∈ "abcdef".data) :
    verify_signature secret raw_body
      ("sha256=" ++ ((hexdigest (hmacSha256 secret raw_body)).map Char.toUpper).asString) =
      some false := by
  obtain ⟨c, hcmem, hcl⟩ := hletter
  have hdata :
      ("sha256=" ++ ((hexdigest (hmacSha256 secret raw_body)).map Char.toUpper).asString).data =
        "sha256=".data ++ (hexdigest (hmacSha256 secret raw_body)).map Char.toUpper := by
    rw [String.data_append]
    rfl
  rw [verify_eq_of_data secret raw_body _ _ hdata]
  refine compare_digest_of_ne (asciiOnly_hexdigest_hmac _ _)
    (asciiOnly_upper_hexdigest _ _) (fun he => ?_)
  have hfix := map_eq_self_mem he.symm c hcmem
  have hupper : ∀ x ∈ ("abcdef".data : List Char), Char.toUpper x ≠ x := by decide
  exact absurd hfix (hupper c hcl)

/-- Witness for C10: the uppercased correct digest for the sample secret
and the empty payload is rejected. -/
theorem claim10_witness :
    verify_signature (asciiBytes "s3cr3t") []
      ("sha256=" ++
        ((hexdigest (hmacSha256 (asciiBytes "s3cr3t") [])).map Char.toUpper).asString) =
      some false :=
  claim10_uppercase_digest_rejected (asciiBytes "s3cr3t") [] (by decide)

/-- After a successful verification the endpoint is the decode / parse /
dispatch cascade. -/
theorem webhook_verify_true_eq {secret raw_body : List Nat} {signature : String}
    (hv : verify_signature secret raw_body signature = some true) :
    webhook secret raw_body signature =
      (match pythonDecode raw_body with
       | none => (Resp.raisedUnicodeDecodeError, [Action.parsedBody])
       | some text =>
           match json_decode text with
           | none => (Resp.aborted 400, [Action.parsedBody, Action.loggedParseError])
           | some (Json.obj fields) =>
               if isStr (jget fields eventTypeKey) repositoryCreated then
                 (Resp.response 204 "", [Action.parsedBody, Action.dispatchedHandler])
               else
                 (Resp.response 204 "", [Action.parsedBody, Action.loggedIgnoredEvent])
           | some _ => (Resp.raisedAttributeError, [Action.parsedBody])) := by
  unfold webhook
  rw [hv]

/-- Verified request whose body its detected codec cannot decode:
uncaught `UnicodeDecodeError`. -/
theorem webhook_of_decode_error {secret raw_body : List Nat} {signature : String}
    (hv : verify_signature secret raw_body signature = some true)
    (hd : pythonDecode raw_body = none) :
    webhook secret raw_body signature = (Resp.raisedUnicodeDecodeError, [Action.parsedBody]) := by
  rw [webhook_verify_true_eq hv]
  simp only [hd]

/-- Verified request whose body decodes but does not parse: 400 abort. -/
theorem webhook_of_parse_error {secret raw_body : List Nat} {signature : String}
    {text : List Nat}
    (hv : verify_signature secret raw_body signature = some true)
    (hd : pythonDecode raw_body = some text) (hj : json_decode text = none) :
    webhook secret raw_body signature =
      (Resp.aborted 400, [Action.parsedBody, Action.loggedParseError]) := by
  rw [webhook_verify_true_eq hv]
  simp only [hd, hj]

/-- A `json.loads` result splits into its decode and parse steps. -/
theorem json_loads_elim {body : List Nat} {v : Json} (h : json_loads body = some v) :
    ∃ text, pythonDecode body = some text ∧ json_decode text = some v := by
  unfold json_loads at h
  exact Option.bind_eq_some.mp h

/-- Verified request whose body loads as an object: 204, with the
dispatch decided by the `event_type` field. -/
theorem webhook_of_obj {secret raw_body : List Nat} {signature : String}
    {fields : List (List Nat × Json)}
    (hv : verify_signature secret raw_body signature = some true)
    (hl : json_loads raw_body = some (Json.obj fields)) :
    webhook secret raw_body signature =
      (if isStr (jget fields eventTypeKey) repositoryCreated then
        (Resp.response 204 "", [Action.parsedBody, Action.dispatchedHandler])
      else
        (Resp.response 204 "", [Action.parsedBody, Action.loggedIgnoredEvent])) := by
  obtain ⟨text, hd, hj⟩ := json_loads_elim hl
  rw [webhook_verify_true_eq hv]
  simp only [hd, hj]

/-- Verified request whose body loads as a non-object value: uncaught
`AttributeError` at `payload.get`. -/
theorem webhook_of_nonobject {secret raw_body : List Nat} {signature : String} {v : Json}
    (hv : verify_signature secret raw_body signature = some true)
    (hl : json_loads raw_body = some v) (hobj : v.isObj = false) :
    webhook secret raw_body signature = (Resp.raisedAttributeError, [Action.parsedBody]) := by
  obtain ⟨text, hd, hj⟩ := json_loads_elim hl
  rw [webhook_verify_true_eq hv]
  simp only [hd, hj]
  cases v with
  | obj fields => exact absurd hobj (by simp [Json.isObj])
  | null => rfl
  | bool b => rfl
  | num lit => rfl
  | str s => rfl
  | arr items => rfl

/-- Counterexample to C2 as stated, at two explicit inputs: the body
`"5"` with a valid signature is valid JSON, yet the response is not a
204 (the endpoint raises `AttributeError` reading `payload.get`); and
the body `FF` with a valid signature is not valid JSON, yet the
response is not a 400 (`json.loads` raises an uncaught
`UnicodeDecodeError`). -/
theorem claim2_counterexample :
    (verify_signature (asciiBytes "s3cr3t") (asciiBytes "5")
        "sha256=a217493e9ec061dfc6206666bc80f953ab6579284054438f6a0b8d71c40bf326" = some true
      ∧ (json_loads (asciiBytes "5")).isSome = true
      ∧ ¬ (webhook (asciiBytes "s3cr3t") (asciiBytes "5")
          "sha256=a217493e9ec061dfc6206666bc80f953ab6579284054438f6a0b8d71c40bf326").1 =
          Resp.response 204 "")
    ∧ (verify_signature (asciiBytes "s3cr3t") [0xFF]
        "sha256=35d7481d6083ed9e63c6489941b698e6f3d9f5eb6aa2335a2198e190a65f034a" = some true
      ∧ (json_loads [0xFF]).isSome = false
      ∧ ¬ (webhook (asciiBytes "s3cr3t") [0xFF]
          "sha256=35d7481d6083ed9e63c6489941b698e6f3d9f5eb6aa2335a2198e190a65f034a").1 =
          Resp.aborted 400) := by
  refine ⟨⟨by decide, by decide, by decide⟩, ⟨by decide, by decide, by decide⟩⟩

/-- C2 (amended): 401 on a failed signature; after a valid signature,
400 when the body decodes (per `json.detect_encoding`) but is not valid
JSON, 204 with empty body when it loads as a JSON object (unknown event
types included), an uncaught `AttributeError` — not a 204 — when it
loads as valid non-object JSON, and an uncaught `UnicodeDecodeError` —
not a 400 — when it does not decode. -/
theorem claim2_response_statuses (secret raw_body : List Nat) (signature : String) :
    (verify_signature secret raw_body signature = some false →
        (webhook secret raw_body signature).1 = Resp.aborted 401)
    ∧ (∀ text, verify_signature secret raw_body signature = some true →
        pythonDecode raw_body = some text → json_decode text = none →
        (webhook secret raw_body signature).1 = Resp.aborted 400)
    ∧ (∀ fields, verify_signature secret raw_body signature = some true →
        json_loads raw_body = some (Json.obj fields) →
        (webhook secret raw_body signature).1 = Resp.response 204 "")
    ∧ (∀ v : Json, verify_signature secret raw_body signature = some true →
        json_loads raw_body = some v → v.isObj = false →
        (webhook secret raw_body signature).1 = Resp.raisedAttributeError)
    ∧ (verify_signature secret raw_body signature = some true →
        pythonDecode raw_body = none →
        (webhook secret raw_body signature).1 = Resp.raisedUnicodeDecodeError) := by
  refine ⟨?_, ?_, ?_, ?_, ?_⟩
  · intro h
    rw [webhook_of_verify_false h]
  · intro text hv hd hj
    rw [webhook_of_parse_error hv hd hj]
  · intro fields hv hl
    rw [webhook_of_obj hv hl]
    by_cases he : isStr (jget fields eventTypeKey) repositoryCreated = true
    · rw [if_pos he]
    · rw [if_neg he]
  · intro v hv hl hobj
    rw [webhook_of_nonobject hv hl hobj]
  · intro hv hd
    rw [webhook_of_decode_error hv hd]

/-- Witness for C2 (amended): one concrete request per branch, with
independently computed signature headers. -/
theorem claim2_witness :
    (webhook (asciiBytes "s3cr3t") (asciiBytes "{}") "sha256=deadbeef").1 = Resp.aborted 401
    ∧ (webhook (asciiBytes "s3cr3t") (asciiBytes "not-json")
        "sha256=fa56d25a69f0d963c35144234552959979455ae4aa4f8c7c30d48678e1e9a0fb").1 =
        Resp.aborted 400
    ∧ (webhook (asciiBytes "s3cr3t") (asciiBytes "{}")
        "sha256=608b0c406f3dda19702d71a048483b8c331283106d80a208e3cf43dbde505286").1 =
        Resp.response 204 ""
    ∧ (webhook (asciiBytes "s3cr3t") (asciiBytes "5")
        "sha256=a217493e9ec061dfc6206666bc80f953ab6579284054438f6a0b8d71c40bf326").1 =
        Resp.raisedAttributeError
    ∧ (webhook (asciiBytes "s3cr3t") [0xFF]
        "sha256=35d7481d6083ed9e63c6489941b698e6f3d9f5eb6aa2335a2198e190a65f034a").1 =
        Resp.raisedUnicodeDecodeError := by
  refine ⟨?_, ?_, ?_, ?_, ?_⟩
  · exact (claim2_response_statuses (asciiBytes "s3cr3t") (asciiBytes "{}")
      "sha256=deadbeef").1 (by decide)
  · exact (claim2_response_statuses (asciiBytes "s3cr3t") (asciiBytes "not-json")
      "sha256=fa56d25a69f0d963c35144234552959979455ae4aa4f8c7c30d48678e1e9a0fb").2.1
      (asciiBytes "not-json") (by decide) (by rfl) (by rfl)
  · exact (claim2_response_statuses (asciiBytes "s3cr3t") (asciiBytes "{}")
      "sha256=608b0c406f3dda19702d71a048483b8c331283106d80a208e3cf43dbde505286").2.2.1
      [] (by decide) (by rfl)
  · exact (claim2_response_statuses (asciiBytes "s3cr3t") (asciiBytes "5")
      "sha256=a217493e9ec061dfc6206666bc80f953ab6579284054438f6a0b8d71c40bf326").2.2.2.1
      (Json.num [53]) (by decide) (by rfl) (by rfl)
  · exact (claim2_response_statuses (asciiBytes "s3cr3t") [0xFF]
      "sha256=35d7481d6083ed9e63c6489941b698e6f3d9f5eb6aa2335a2198e190a65f034a").2.2.2.2
      (by decide) (by rfl)

/-- C7: a verified request whose JSON object carries any `event_type`
other than the string `"repository.created"` is acknowledged with an
empty 204 and `handle_repository_created` is not invoked. -/
theorem claim7_unknown_event_acknowledged (secret raw_body : List Nat) (signature : String)
    (fields : List (List Nat × Json))
    (hv : verify_signature secret raw_body signature = some true)
    (hu : utf8Valid raw_body = true)
    (hj : json_loads raw_body = some (Json.obj fields))
    (he : isStr (jget fields eventTypeKey) repositoryCreated = false) :
    webhook secret raw_body signature =
      (Resp.response 204 "", [Action.parsedBody, Action.loggedIgnoredEvent])
    ∧ Action.dispatchedHandler ∉ (webhook secret raw_body signature).2 := by
  have hw : webhook secret raw_body signature =
      (Resp.response 204 "", [Action.parsedBody, Action.loggedIgnoredEvent]) := by
    rw [webhook_of_obj hv hj, he]
    exact if_neg (fun h => absurd h (by decide))
  refine ⟨hw, ?_⟩
  rw [hw]
  decide

/-- Witness for C7: the spec's end-to-end case — a valid signature over
the body with event type `"something.else"` yields 204 and no
dispatch. -/
theorem claim7_witness :
    webhook (asciiBytes "s3cr3t")
        (asciiBytes "\x7b\"event_type\":\"something.else\"\x7d")
        "sha256=a3537ee561d411c31f7908e2e490950d3f01b60e3afa4dc8e687f891a39f23a3" =
      (Resp.response 204 "", [Action.parsedBody, Action.loggedIgnoredEvent])
    ∧ Action.dispatchedHandler ∉
        (webhook (asciiBytes "s3cr3t")
          (asciiBytes "\x7b\"event_type\":\"something.else\"\x7d")
          "sha256=a3537ee561d411c31f7908e2e490950d3f01b60e3afa4dc8e687f891a39f23a3").2 :=
  claim7_unknown_event_acknowledged (asciiBytes "s3cr3t")
    (asciiBytes "\x7b\"event_type\":\"something.else\"\x7d")
    "sha256=a3537ee561d411c31f7908e2e490950d3f01b60e3afa4dc8e687f891a39f23a3"
    [(asciiBytes "event_type", Json.str (asciiBytes "something.else"))]
    (by decide) (by decide) (by rfl) (by decide)

/-- C9: a verified request whose body is valid JSON but not an object is
answered with neither a 400 nor a 204 — reading the `event_type`
discriminator raises an uncaught `AttributeError`. -/
theorem claim9_nonobject_json_raises (secret raw_body : List Nat) (signature : String) (v : Json)
    (hv : verify_signature secret raw_body signature = some true)
    (hu : utf8Valid raw_body = true)
    (hj : json_loads raw_body = some v)
    (hobj : v.isObj = false) :
    (webhook secret raw_body signature).1 = Resp.raisedAttributeError
    ∧ ¬ (webhook secret raw_body signature).1 = Resp.aborted 400
    ∧ ¬ (webhook secret raw_body signature).1 = Resp.response 204 "" := by
  have hw := webhook_of_nonobject hv hj hobj
  refine ⟨by rw [hw], by rw [hw]; decide, by rw [hw]; decide⟩

/-- Witness for C9: the valid-signature request with body `"[1]"` (a
JSON array) raises instead of answering 400 or 204. -/
theorem claim9_witness :
    (webhook (asciiBytes "s3cr3t") (asciiBytes "[1]")
        ("sha256=".data ++ hexdigest (hmacSha256 (asciiBytes "s3cr3t") (asciiBytes "[1]"))).asString).1 =
        Resp.raisedAttributeError
    ∧ ¬ (webhook (asciiBytes "s3cr3t") (asciiBytes "[1]")
        ("sha256=".data ++ hexdigest (hmacSha256 (asciiBytes "s3cr3t") (asciiBytes "[1]"))).asString).1 =
        Resp.aborted 400
    ∧ ¬ (webhook (asciiBytes "s3cr3t") (asciiBytes "[1]")
        ("sha256=".data ++ hexdigest (hmacSha256 (asciiBytes "s3cr3t") (asciiBytes "[1]"))).asString).1 =
        Resp.response 204 "" :=
  claim9_nonobject_json_raises (asciiBytes "s3cr3t") (asciiBytes "[1]") _
    (Json.arr [Json.num [49]]) (by decide) (by decide) (by rfl) (by rfl)

end WebhookReceiver
